import Mathlib

/-!
Shallow embedding of the e-commerce API in `src/app.py` (Flask + SQLAlchemy +
Marshmallow over MySQL).  The relational store is an explicit `DB` value, each
HTTP handler is a pure function `DB → ... → DB × Response`, and the
Marshmallow schema loading is embedded as explicit validators over JSON-like
payloads.  Unexpected store failures (the `except Exception` branches around
`db.session.commit()`) are modelled by an oracle `fail : Option String`:
`some m` means the commit raises an exception whose `str` is `m`.
-/

namespace ECommerce

/-- JSON values as they occur in request payloads.  Booleans and `null` do not
occur in any behaviour the claims exercise and are omitted. -/
inductive JVal where
  | jstr : String → JVal
  | jnum : Rat → JVal
  | jarr : List JVal → JVal
  | jobj : List (String × JVal) → JVal

/-- A JSON object payload: `request.json` / `request.get_json()`. -/
abbrev Payload := List (String × JVal)

/-- Field lookup in a payload (Python dict access; JSON object keys are
unique, so first match suffices). -/
def lookup (p : Payload) (k : String) : Option JVal :=
  (p.find? (fun kv => kv.1 = k)).map (fun kv => kv.2)

-- ----------------------------------------------------------------------
-- Marshmallow validation messages (exact default texts)
-- ----------------------------------------------------------------------

def missingMsg : String := "Missing data for required field."

def unknownMsg : String := "Unknown field."

def notStringMsg : String := "Not a valid string."

def notNumberMsg : String := "Not a valid number."

def notIntegerMsg : String := "Not a valid integer."

def notDatetimeMsg : String := "Not a valid datetime."

def maxLenMsg (n : Nat) : String :=
  "Longer than maximum length " ++ toString n ++ "."

/-- Python `str(ValidationError)` applied to the collected messages; the
handlers other than `add_user` return this string under an "error" key. -/
def msgsToString (msgs : List (String × String)) : String := toString msgs

-- ----------------------------------------------------------------------
-- Field checks, mirroring the auto-generated marshmallow-sqlalchemy fields
-- ----------------------------------------------------------------------

/-- Keys of the payload that are not loadable fields of the schema (this
includes the `dump_only` autoincrement primary key `id`): marshmallow
reports each as "Unknown field." under its key. -/
def unknownFieldErrs (p : Payload) (loadable : List String) : List (String × String) :=
  (p.filter (fun kv => !loadable.contains kv.1)).map (fun kv => (kv.1, unknownMsg))

/-- Required `String(maxLen)` column field (`nullable=False`, length
validator). -/
def checkStrReq (p : Payload) (k : String) (maxLen : Nat) : List (String × String) :=
  match lookup p k with
  | none => [(k, missingMsg)]
  | some (JVal.jstr s) => if s.length ≤ maxLen then [] else [(k, maxLenMsg maxLen)]
  | some _ => [(k, notStringMsg)]

/-- Same field check under `partial=True`: a missing key is not an error. -/
def checkStrOpt (p : Payload) (k : String) (maxLen : Nat) : List (String × String) :=
  match lookup p k with
  | none => []
  | some (JVal.jstr s) => if s.length ≤ maxLen then [] else [(k, maxLenMsg maxLen)]
  | some _ => [(k, notStringMsg)]

/-- Required `Float` column field.  (Marshmallow would also coerce numeric
strings; no behaviour the claims exercise depends on that corner and it is
not modelled.) -/
def checkNumReq (p : Payload) (k : String) : List (String × String) :=
  match lookup p k with
  | none => [(k, missingMsg)]
  | some (JVal.jnum _) => []
  | some _ => [(k, notNumberMsg)]

/-- Float field under partial loading: a missing key is not an error. -/
def checkNumOpt (p : Payload) (k : String) : List (String × String) :=
  match lookup p k with
  | none => []
  | some (JVal.jnum _) => []
  | some _ => [(k, notNumberMsg)]

/-- Required `Integer` foreign-key field (`include_fk = True`).  Accepts a
whole JSON number or a decimal string, as Python `int()` does.  (Python's
truncation of non-integral floats is not modelled; no claim touches it.) -/
def checkIntReq (p : Payload) (k : String) : List (String × String) :=
  match lookup p k with
  | none => [(k, missingMsg)]
  | some (JVal.jnum q) => if q.den = 1 then [] else [(k, notIntegerMsg)]
  | some (JVal.jstr s) =>
      match s.toInt? with
      | some _ => []
      | none => [(k, notIntegerMsg)]
  | some _ => [(k, notIntegerMsg)]

/-- Optional `DateTime` column field (`order_date` has a server default, so
marshmallow does not require it).  ISO-8601 parsing is abstracted: any string
is accepted and kept verbatim; no claim depends on date parsing. -/
def checkDateOpt (p : Payload) (k : String) : List (String × String) :=
  match lookup p k with
  | none => []
  | some (JVal.jstr _) => []
  | some _ => [(k, notDatetimeMsg)]

def getStr (p : Payload) (k : String) : String :=
  match lookup p k with
  | some (JVal.jstr s) => s
  | _ => ""

def getStrOpt (p : Payload) (k : String) : Option String :=
  match lookup p k with
  | some (JVal.jstr s) => some s
  | _ => none

def getNum (p : Payload) (k : String) : Rat :=
  match lookup p k with
  | some (JVal.jnum q) => q
  | _ => 0

def getNumOpt (p : Payload) (k : String) : Option Rat :=
  match lookup p k with
  | some (JVal.jnum q) => some q
  | _ => none

def getInt (p : Payload) (k : String) : Int :=
  match lookup p k with
  | some (JVal.jnum q) => q.num
  | some (JVal.jstr s) => (s.toInt?).getD 0
  | _ => 0

def getDateOpt (p : Payload) (k : String) : Option String :=
  match lookup p k with
  | some (JVal.jstr s) => some s
  | _ => none

-- ----------------------------------------------------------------------
-- Validated data (the deserialized, transient model instances)
-- ----------------------------------------------------------------------

/-- Deserialized `User` payload (`UserSchema.load` on a create request):
`id` is `dump_only` and never loadable. -/
structure UserData where
  name : String
  address : String
  email : String
deriving DecidableEq, Repr

/-- Deserialized partial `User` payload (`partial=True`): only the fields
present in the request. -/
structure UserUpd where
  name : Option String
  address : Option String
  email : Option String
deriving DecidableEq, Repr

structure ProductData where
  product_name : String
  price : Rat
deriving DecidableEq, Repr

structure ProductUpd where
  product_name : Option String
  price : Option Rat
deriving DecidableEq, Repr

/-- Deserialized `Order` payload.  `OrderSchema` declares a loadable nested
`products` field (`ma.Nested(ProductSchema, many=True)`), whose elements are
deserialized into transient `Product` instances and cascade-saved with the
order. -/
structure OrderData where
  user_id : Int
  order_date : Option String
  products : List ProductData
deriving DecidableEq, Repr

def userLoadable : List String := ["name", "address", "email"]

def productLoadable : List String := ["product_name", "price"]

def orderLoadable : List String := ["order_date", "user_id", "products"]

/-- Marshmallow's load outcome: the deserialized value if no field error was
collected, otherwise the collected errors. -/
def mkValidated {α : Type} (errs : List (String × String)) (a : α) :
    Except (List (String × String)) α :=
  if errs.isEmpty then Except.ok a else Except.error errs

/-- Embeds `user_schema.load(request.json)`: collects all field errors; on
success produces the transient instance. -/
def validateUser (p : Payload) : Except (List (String × String)) UserData :=
  mkValidated
    (unknownFieldErrs p userLoadable ++ checkStrReq p "name" 100
      ++ checkStrReq p "address" 200 ++ checkStrReq p "email" 100)
    ⟨getStr p "name", getStr p "address", getStr p "email"⟩

/-- Embeds the partial `user_schema.load` of PUT /users/{id}. -/
def validateUserUpd (p : Payload) : Except (List (String × String)) UserUpd :=
  mkValidated
    (unknownFieldErrs p userLoadable ++ checkStrOpt p "name" 100
      ++ checkStrOpt p "address" 200 ++ checkStrOpt p "email" 100)
    ⟨getStrOpt p "name", getStrOpt p "address", getStrOpt p "email"⟩

def validateProduct (p : Payload) : Except (List (String × String)) ProductData :=
  mkValidated
    (unknownFieldErrs p productLoadable
      ++ checkStrReq p "product_name" 100 ++ checkNumReq p "price")
    ⟨getStr p "product_name", getNum p "price"⟩

def validateProductUpd (p : Payload) : Except (List (String × String)) ProductUpd :=
  mkValidated
    (unknownFieldErrs p productLoadable
      ++ checkStrOpt p "product_name" 100 ++ checkNumOpt p "price")
    ⟨getStrOpt p "product_name", getNumOpt p "price"⟩

/-- Errors of the nested `products` list, flattened with positional keys
(marshmallow nests them as an index-keyed mapping). -/
def checkNestedProducts : Nat → List JVal → List (String × String)
  | _, [] => []
  | i, JVal.jobj kvs :: rest =>
      (match validateProduct kvs with
       | Except.ok _ => []
       | Except.error msgs =>
           msgs.map (fun m => ("products." ++ toString i ++ "." ++ m.1, m.2)))
      ++ checkNestedProducts (i + 1) rest
  | i, _ :: rest =>
      ("products." ++ toString i, "Invalid type.") :: checkNestedProducts (i + 1) rest

def getNestedProducts (l : List JVal) : List ProductData :=
  l.filterMap (fun v =>
    match v with
    | JVal.jobj kvs => (validateProduct kvs).toOption
    | _ => none)

def checkProductsOpt (p : Payload) : List (String × String) :=
  match lookup p "products" with
  | none => []
  | some (JVal.jarr l) => checkNestedProducts 0 l
  | some _ => [("products", "Invalid type.")]

def getProducts (p : Payload) : List ProductData :=
  match lookup p "products" with
  | some (JVal.jarr l) => getNestedProducts l
  | _ => []

def validateOrder (p : Payload) : Except (List (String × String)) OrderData :=
  mkValidated
    (unknownFieldErrs p orderLoadable ++ checkDateOpt p "order_date"
      ++ checkIntReq p "user_id" ++ checkProductsOpt p)
    ⟨getInt p "user_id", getDateOpt p "order_date", getProducts p⟩

-- ----------------------------------------------------------------------
-- Persisted rows and the store state
-- ----------------------------------------------------------------------

structure User where
  id : Nat
  name : String
  address : String
  email : String
deriving DecidableEq, Repr

structure Product where
  id : Nat
  product_name : String
  price : Rat
deriving DecidableEq, Repr

structure Order where
  id : Nat
  order_date : String
  user_id : Int
deriving DecidableEq, Repr

/-- The relational store: the three entity tables, the `order_product`
association table (rows `(order_id, product_id)`), and the autoincrement
counters of the three integer primary keys. -/
structure DB where
  users : List User
  products : List Product
  orders : List Order
  orderProducts : List (Nat × Nat)
  nextUserId : Nat
  nextProductId : Nat
  nextOrderId : Nat
deriving DecidableEq, Repr

def emptyDB : DB := ⟨[], [], [], [], 1, 1, 1⟩

def findUser (db : DB) (id : Nat) : Option User :=
  db.users.find? (fun u => u.id = id)

def findProduct (db : DB) (id : Nat) : Option Product :=
  db.products.find? (fun pr => pr.id = id)

def findOrder (db : DB) (id : Nat) : Option Order :=
  db.orders.find? (fun o => o.id = id)

/-- Embeds `order.products`: the products associated to the order through
the `order_product` table. -/
def orderProductsOf (db : DB) (oid : Nat) : List Product :=
  (db.orderProducts.filter (fun r => r.1 = oid)).filterMap (fun r => findProduct db r.2)

-- ----------------------------------------------------------------------
-- Responses
-- ----------------------------------------------------------------------

/-- Response bodies, one constructor per `jsonify(...)` shape in the source. -/
inductive Body where
  | fieldErrors : List (String × String) → Body
  | errorMsg : String → Body
  | message : String → Body
  | userCreated : String → User → Body
  | userBody : User → Body
  | usersBody : List User → Body
  | productBody : Product → Body
  | productsBody : List Product → Body
  | orderBody : Order → List Product → Body
  | ordersBody : List (Order × List Product) → Body
deriving DecidableEq, Repr

structure Response where
  status : Nat
  body : Body
deriving DecidableEq, Repr

/-- Python `str` of the `werkzeug.exceptions.NotFound` raised by
`get_or_404`. -/
def notFoundStr : String :=
  "404 Not Found: The requested URL was not found on the server. If you entered the URL manually please check your spelling and try again."

/-- Python `str` of the `IntegrityError` MySQL raises when an inserted
`orders.user_id` references no `user` row (text abstracted; only its
identity matters). -/
def orderUserFkMsg : String :=
  "(mysql.connector.errors.IntegrityError) 1452 (23000): Cannot add or update a child row: a foreign key constraint fails (orders.user_id)"

/-- Python `str` of the error raised when deleting a `User` that still has
`Order` rows: SQLAlchemy tries to null out `order.user_id`, which is
`nullable=False` (text abstracted). -/
def userDeleteFkMsg : String :=
  "(mysql.connector.errors.IntegrityError) 1048 (23000): Column user_id cannot be null"

-- ----------------------------------------------------------------------
-- User endpoints
-- ----------------------------------------------------------------------

/-- GET /users -/
def get_all_users (db : DB) : DB × Response :=
  (db, ⟨200, Body.usersBody db.users⟩)

/-- GET /users/{id}: `get_or_404` failure is caught and returned as 404. -/
def get_user (db : DB) (id : Nat) : DB × Response :=
  match findUser db id with
  | none => (db, ⟨404, Body.errorMsg notFoundStr⟩)
  | some u => (db, ⟨200, Body.userBody u⟩)

/-- POST /users: validate, reject duplicate email, insert. -/
def add_user (db : DB) (p : Payload) (fail : Option String) : DB × Response :=
  match validateUser p with
  | Except.error msgs => (db, ⟨400, Body.fieldErrors msgs⟩)
  | Except.ok d =>
    if (db.users.find? (fun u => u.email = d.email)).isSome then
      (db, ⟨400, Body.errorMsg "User with this email already exists"⟩)
    else
      match fail with
      | some m => (db, ⟨500, Body.errorMsg m⟩)
      | none =>
        let u : User := ⟨db.nextUserId, d.name, d.address, d.email⟩
        ({ db with users := db.users ++ [u], nextUserId := db.nextUserId + 1 },
         ⟨201, Body.userCreated "New user added successfully!" u⟩)

/-- Marshmallow applying a partial load onto the loaded instance: only the
fields present in the payload are assigned. -/
def applyUserUpd (u : User) (d : UserUpd) : User :=
  { u with name := d.name.getD u.name, address := d.address.getD u.address,
           email := d.email.getD u.email }

/-- PUT /users/{id}: 404 if absent, 400 (stringified error) on validation
failure, otherwise assign the given fields and commit. -/
def update_user (db : DB) (id : Nat) (p : Payload) (fail : Option String) : DB × Response :=
  match findUser db id with
  | none => (db, ⟨404, Body.errorMsg notFoundStr⟩)
  | some u =>
    match validateUserUpd p with
    | Except.error msgs => (db, ⟨400, Body.errorMsg (msgsToString msgs)⟩)
    | Except.ok d =>
      match fail with
      | some m => (db, ⟨500, Body.errorMsg m⟩)
      | none =>
        let u' := applyUserUpd u d
        ({ db with users := db.users.map (fun v => if v.id = id then u' else v) },
         ⟨200, Body.userBody u'⟩)

/-- DELETE /users/{id}.  The `get_or_404` call sits inside the same
`try` as the delete and commit, so the `NotFound` it raises on a missing id
is caught by the blanket `except Exception` handler and reported as 500.
Deleting a user that still owns orders violates `order.user_id NOT NULL`
at flush time and is likewise reported as 500 after rollback. -/
def delete_user (db : DB) (id : Nat) (fail : Option String) : DB × Response :=
  match findUser db id with
  | none => (db, ⟨500, Body.errorMsg notFoundStr⟩)
  | some _ =>
    if (db.orders.find? (fun o => o.user_id = (id : Int))).isSome then
      (db, ⟨500, Body.errorMsg userDeleteFkMsg⟩)
    else
      match fail with
      | some m => (db, ⟨500, Body.errorMsg m⟩)
      | none =>
        ({ db with users := db.users.filter (fun u => u.id ≠ id) },
         ⟨200, Body.message "User deleted"⟩)

-- ----------------------------------------------------------------------
-- Product endpoints
-- ----------------------------------------------------------------------

/-- GET /products -/
def get_all_products (db : DB) : DB × Response :=
  (db, ⟨200, Body.productsBody db.products⟩)

/-- GET /products/{id} -/
def get_product (db : DB) (id : Nat) : DB × Response :=
  match findProduct db id with
  | none => (db, ⟨404, Body.errorMsg notFoundStr⟩)
  | some pr => (db, ⟨200, Body.productBody pr⟩)

/-- POST /products: validation failure is returned as a stringified error
under "error", unlike `add_user`. -/
def create_product (db : DB) (p : Payload) (fail : Option String) : DB × Response :=
  match validateProduct p with
  | Except.error msgs => (db, ⟨400, Body.errorMsg (msgsToString msgs)⟩)
  | Except.ok d =>
    match fail with
    | some m => (db, ⟨500, Body.errorMsg m⟩)
    | none =>
      let pr : Product := ⟨db.nextProductId, d.product_name, d.price⟩
      ({ db with products := db.products ++ [pr], nextProductId := db.nextProductId + 1 },
       ⟨201, Body.productBody pr⟩)

def applyProductUpd (pr : Product) (d : ProductUpd) : Product :=
  { pr with product_name := d.product_name.getD pr.product_name,
            price := d.price.getD pr.price }

/-- PUT /products/{id} -/
def update_product (db : DB) (id : Nat) (p : Payload) (fail : Option String) : DB × Response :=
  match findProduct db id with
  | none => (db, ⟨404, Body.errorMsg notFoundStr⟩)
  | some pr =>
    match validateProductUpd p with
    | Except.error msgs => (db, ⟨400, Body.errorMsg (msgsToString msgs)⟩)
    | Except.ok d =>
      match fail with
      | some m => (db, ⟨500, Body.errorMsg m⟩)
      | none =>
        let pr' := applyProductUpd pr d
        ({ db with products := db.products.map (fun v => if v.id = id then pr' else v) },
         ⟨200, Body.productBody pr'⟩)

/-- DELETE /products/{id}: same merged `try` as `delete_user`, so a missing
id yields 500.  On success SQLAlchemy also deletes the `order_product`
rows that reference the product (automatic secondary-table maintenance of
the many-to-many relationship). -/
def delete_product (db : DB) (id : Nat) (fail : Option String) : DB × Response :=
  match findProduct db id with
  | none => (db, ⟨500, Body.errorMsg notFoundStr⟩)
  | some _ =>
    match fail with
    | some m => (db, ⟨500, Body.errorMsg m⟩)
    | none =>
      ({ db with products := db.products.filter (fun pr => pr.id ≠ id),
                 orderProducts := db.orderProducts.filter (fun r => r.2 ≠ id) },
       ⟨200, Body.message "Product deleted"⟩)

-- ----------------------------------------------------------------------
-- Order endpoints
-- ----------------------------------------------------------------------

/-- Transient products deserialized from a nested `products` payload get
consecutive autoincrement ids at insert. -/
def mkProducts : Nat → List ProductData → List Product
  | _, [] => []
  | n, d :: ds => ⟨n, d.product_name, d.price⟩ :: mkProducts (n + 1) ds

/-- POST /orders: the handler never checks that `user_id` exists; the
store's foreign-key constraint rejects the insert at commit, which the
blanket handler reports as 500 after rollback. -/
def create_order (db : DB) (p : Payload) (now : String) (fail : Option String) : DB × Response :=
  match validateOrder p with
  | Except.error msgs => (db, ⟨400, Body.errorMsg (msgsToString msgs)⟩)
  | Except.ok d =>
    if (db.users.find? (fun u => (u.id : Int) = d.user_id)).isNone then
      (db, ⟨500, Body.errorMsg orderUserFkMsg⟩)
    else
      match fail with
      | some m => (db, ⟨500, Body.errorMsg m⟩)
      | none =>
        let o : Order := ⟨db.nextOrderId, d.order_date.getD now, d.user_id⟩
        let newPs := mkProducts db.nextProductId d.products
        ({ db with orders := db.orders ++ [o],
                   products := db.products ++ newPs,
                   orderProducts := db.orderProducts ++ newPs.map (fun pr => (o.id, pr.id)),
                   nextOrderId := db.nextOrderId + 1,
                   nextProductId := db.nextProductId + d.products.length },
         ⟨201, Body.orderBody o newPs⟩)

/-- PUT /orders/{oid}/add_product/{pid} -/
def add_product_to_order (db : DB) (oid pid : Nat) (fail : Option String) : DB × Response :=
  match findOrder db oid, findProduct db pid with
  | none, _ => (db, ⟨404, Body.errorMsg notFoundStr⟩)
  | some _, none => (db, ⟨404, Body.errorMsg notFoundStr⟩)
  | some o, some _ =>
    if (oid, pid) ∈ db.orderProducts then
      (db, ⟨400, Body.errorMsg "Product already in order"⟩)
    else
      match fail with
      | some m => (db, ⟨500, Body.errorMsg m⟩)
      | none =>
        let db' := { db with orderProducts := db.orderProducts ++ [(oid, pid)] }
        (db', ⟨200, Body.orderBody o (orderProductsOf db' oid)⟩)

/-- DELETE /orders/{oid}/remove_product/{pid} -/
def remove_product_from_order (db : DB) (oid pid : Nat) (fail : Option String) : DB × Response :=
  match findOrder db oid, findProduct db pid with
  | none, _ => (db, ⟨404, Body.errorMsg notFoundStr⟩)
  | some _, none => (db, ⟨404, Body.errorMsg notFoundStr⟩)
  | some _, some _ =>
    if (oid, pid) ∈ db.orderProducts then
      match fail with
      | some m => (db, ⟨500, Body.errorMsg m⟩)
      | none =>
        ({ db with orderProducts := db.orderProducts.filter (fun r => r ≠ (oid, pid)) },
         ⟨200, Body.message "Product removed from order"⟩)
    else (db, ⟨400, Body.errorMsg "Product not in order"⟩)

/-- GET /orders/user/{uid} -/
def get_user_orders (db : DB) (uid : Int) : DB × Response :=
  (db, ⟨200, Body.ordersBody ((db.orders.filter (fun o => o.user_id = uid)).map
    (fun o => (o, orderProductsOf db o.id)))⟩)

/-- GET /orders/{oid}/products -/
def get_order_products (db : DB) (oid : Nat) : DB × Response :=
  match findOrder db oid with
  | none => (db, ⟨404, Body.errorMsg notFoundStr⟩)
  | some _ => (db, ⟨200, Body.productsBody (orderProductsOf db oid)⟩)

-- ----------------------------------------------------------------------
-- Requests and the transition function
-- ----------------------------------------------------------------------

/-- One HTTP request to any endpoint of the service. -/
inductive Request where
  | getAllUsers
  | getUser (id : Nat)
  | addUser (p : Payload)
  | updateUser (id : Nat) (p : Payload)
  | deleteUser (id : Nat)
  | getAllProducts
  | getProduct (id : Nat)
  | createProduct (p : Payload)
  | updateProduct (id : Nat) (p : Payload)
  | deleteProduct (id : Nat)
  | createOrder (p : Payload) (now : String)
  | addProductToOrder (oid pid : Nat)
  | removeProductFromOrder (oid pid : Nat)
  | getUserOrders (uid : Int)
  | getOrderProducts (oid : Nat)

/-- Dispatch a request to its handler. -/
def step (db : DB) (r : Request) (fail : Option String) : DB × Response :=
  match r with
  | Request.getAllUsers => get_all_users db
  | Request.getUser id => get_user db id
  | Request.addUser p => add_user db p fail
  | Request.updateUser id p => update_user db id p fail
  | Request.deleteUser id => delete_user db id fail
  | Request.getAllProducts => get_all_products db
  | Request.getProduct id => get_product db id
  | Request.createProduct p => create_product db p fail
  | Request.updateProduct id p => update_product db id p fail
  | Request.deleteProduct id => delete_product db id fail
  | Request.createOrder p now => create_order db p now fail
  | Request.addProductToOrder oid pid => add_product_to_order db oid pid fail
  | Request.removeProductFromOrder oid pid => remove_product_from_order db oid pid fail
  | Request.getUserOrders uid => get_user_orders db uid
  | Request.getOrderProducts oid => get_order_products db oid

/-- Requests that issue writes (create/update/delete/associate). -/
def isMutating : Request → Bool
  | Request.addUser _ => true
  | Request.updateUser _ _ => true
  | Request.deleteUser _ => true
  | Request.createProduct _ => true
  | Request.updateProduct _ _ => true
  | Request.deleteProduct _ => true
  | Request.createOrder _ _ => true
  | Request.addProductToOrder _ _ => true
  | Request.removeProductFromOrder _ _ => true
  | _ => false

/-- Well-formedness of the store: autoincrement counters dominate all
assigned ids, every association row references an existing order and
product, and the `(order_id, product_id)` pairs are unique (the composite
primary key / unique constraint of `order_product`). -/
def Inv (db : DB) : Prop :=
  (∀ u ∈ db.users, u.id < db.nextUserId) ∧
  (∀ pr ∈ db.products, pr.id < db.nextProductId) ∧
  (∀ o ∈ db.orders, o.id < db.nextOrderId) ∧
  (∀ r ∈ db.orderProducts,
    (∃ o ∈ db.orders, o.id = r.1) ∧ (∃ pr ∈ db.products, pr.id = r.2)) ∧
  db.orderProducts.Nodup

/-- Does the body carry marshmallow's structured field-to-message mapping
(the shape `jsonify(e.messages)` produces)? -/
def isFieldMapping : Body → Bool
  | Body.fieldErrors _ => true
  | _ => false

-- ----------------------------------------------------------------------
-- Helper lemmas about the validators
-- ----------------------------------------------------------------------

theorem mkValidated_ok {α : Type} {errs : List (String × String)} {a d : α}
    (h : mkValidated errs a = Except.ok d) : d = a := by
  unfold mkValidated at h
  split at h
  · exact (Except.ok.injEq _ _ ▸ h).symm
  · exact Except.noConfusion h

theorem mkValidated_err {α : Type} {errs : List (String × String)} {a : α}
    (h : errs ≠ []) : mkValidated errs a = Except.error errs := by
  unfold mkValidated
  rw [if_neg]
  simpa using h

theorem validateUser_ok {p : Payload} {d : UserData} (h : validateUser p = Except.ok d) :
    d = ⟨getStr p "name", getStr p "address", getStr p "email"⟩ :=
  mkValidated_ok h

theorem validateUserUpd_ok {p : Payload} {d : UserUpd} (h : validateUserUpd p = Except.ok d) :
    d = ⟨getStrOpt p "name", getStrOpt p "address", getStrOpt p "email"⟩ :=
  mkValidated_ok h

theorem validateProductUpd_ok {p : Payload} {d : ProductUpd}
    (h : validateProductUpd p = Except.ok d) :
    d = ⟨getStrOpt p "product_name", getNumOpt p "price"⟩ :=
  mkValidated_ok h

/-- A payload key that is not a loadable field of the schema forces the
load to fail (marshmallow's `unknown = RAISE`, which also covers the
`dump_only` primary key `id`). -/
theorem unknownFieldErrs_ne_nil {p : Payload} {loadable : List String} {k : String}
    (hk : (lookup p k).isSome) (hnl : loadable.contains k = false) :
    unknownFieldErrs p loadable ≠ [] := by
  unfold lookup at hk
  cases hfind : p.find? (fun kv => kv.1 = k) with
  | none => rw [hfind] at hk; simp at hk
  | some kv =>
    have hkv : kv ∈ p := List.mem_of_find?_eq_some hfind
    have hk1 : kv.1 = k := by have := List.find?_some hfind; simpa using this
    have hmem : kv ∈ p.filter (fun kv => !loadable.contains kv.1) := by
      refine List.mem_filter.mpr ⟨hkv, ?_⟩
      rw [hk1, hnl]
      rfl
    have : (kv.1, unknownMsg) ∈ unknownFieldErrs p loadable :=
      List.mem_map.mpr ⟨kv, hmem, rfl⟩
    exact List.ne_nil_of_mem this

theorem validateUserUpd_id_err {p : Payload} (hk : (lookup p "id").isSome) :
    ∃ msgs, validateUserUpd p = Except.error msgs := by
  refine ⟨_, mkValidated_err ?_⟩
  intro hnil
  rcases List.append_eq_nil.mp (List.append_eq_nil.mp
    (List.append_eq_nil.mp hnil).1).1 with ⟨h1, _⟩
  exact unknownFieldErrs_ne_nil hk (by decide) h1

theorem validateProductUpd_id_err {p : Payload} (hk : (lookup p "id").isSome) :
    ∃ msgs, validateProductUpd p = Except.error msgs := by
  refine ⟨_, mkValidated_err ?_⟩
  intro hnil
  rcases List.append_eq_nil.mp (List.append_eq_nil.mp hnil).1 with ⟨h1, _⟩
  exact unknownFieldErrs_ne_nil hk (by decide) h1

-- ----------------------------------------------------------------------
-- Helper lemmas about the store
-- ----------------------------------------------------------------------

theorem find?_map_set_user (l : List User) (id : Nat) (u u' : User)
    (h : l.find? (fun v => v.id = id) = some u) (hid : u'.id = id) :
    (l.map (fun v => if v.id = id then u' else v)).find? (fun v => v.id = id) = some u' := by
  induction l with
  | nil => exact Option.noConfusion h
  | cons a l ih =>
    simp only [List.map_cons]
    by_cases ha : a.id = id
    · rw [if_pos ha, List.find?_cons_of_pos _ (by simp [hid])]
    · rw [if_neg ha, List.find?_cons_of_neg _ (by simp [ha])]
      rw [List.find?_cons_of_neg _ (by simp [ha])] at h
      exact ih h

theorem find?_map_set_product (l : List Product) (id : Nat) (pr pr' : Product)
    (h : l.find? (fun v => v.id = id) = some pr) (hid : pr'.id = id) :
    (l.map (fun v => if v.id = id then pr' else v)).find? (fun v => v.id = id) = some pr' := by
  induction l with
  | nil => exact Option.noConfusion h
  | cons a l ih =>
    simp only [List.map_cons]
    by_cases ha : a.id = id
    · rw [if_pos ha, List.find?_cons_of_pos _ (by simp [hid])]
    · rw [if_neg ha, List.find?_cons_of_neg _ (by simp [ha])]
      rw [List.find?_cons_of_neg _ (by simp [ha])] at h
      exact ih h

theorem mkProducts_id_bounds {n : Nat} {ds : List ProductData} {pr : Product}
    (h : pr ∈ mkProducts n ds) : n ≤ pr.id ∧ pr.id < n + ds.length := by
  induction ds generalizing n with
  | nil => exact absurd h (List.not_mem_nil pr)
  | cons d ds ih =>
    rw [mkProducts, List.mem_cons] at h
    rcases h with rfl | h
    · simp only [List.length_cons]
      omega
    · have h2 := ih h
      simp only [List.length_cons]
      omega

theorem mkProducts_pairwise_ne (n : Nat) (ds : List ProductData) :
    (mkProducts n ds).Pairwise (fun a b => a.id ≠ b.id) := by
  induction ds generalizing n with
  | nil => exact List.Pairwise.nil
  | cons d ds ih =>
    rw [mkProducts]
    refine List.Pairwise.cons ?_ (ih (n + 1))
    intro b hb
    have := mkProducts_id_bounds hb
    show n ≠ b.id
    omega

theorem mkProducts_rows_nodup (n : Nat) (ds : List ProductData) (oid : Nat) :
    ((mkProducts n ds).map (fun pr => (oid, pr.id))).Nodup := by
  rw [List.Nodup, List.pairwise_map]
  refine (mkProducts_pairwise_ne n ds).imp ?_
  intro a b hne hc
  exact hne (congrArg Prod.snd hc)

theorem get_user_state (db : DB) (id : Nat) : (get_user db id).1 = db := by
  unfold get_user
  cases findUser db id <;> rfl

theorem get_product_state (db : DB) (id : Nat) : (get_product db id).1 = db := by
  unfold get_product
  cases findProduct db id <;> rfl

theorem get_order_products_state (db : DB) (oid : Nat) :
    (get_order_products db oid).1 = db := by
  unfold get_order_products
  cases findOrder db oid <;> rfl

-- ----------------------------------------------------------------------
-- Preservation of the store invariant by every operation
-- ----------------------------------------------------------------------

theorem inv_add_user (db : DB) (p : Payload) (fail : Option String) (h : Inv db) :
    Inv (add_user db p fail).1 := by
  obtain ⟨h1, h2, h3, h4, h5⟩ := h
  unfold add_user
  cases hv : validateUser p with
  | error msgs => exact ⟨h1, h2, h3, h4, h5⟩
  | ok d =>
    dsimp only
    by_cases hd : (db.users.find? (fun u => u.email = d.email)).isSome
    · rw [if_pos hd]
      exact ⟨h1, h2, h3, h4, h5⟩
    · rw [if_neg hd]
      cases fail with
      | some m => exact ⟨h1, h2, h3, h4, h5⟩
      | none =>
        refine ⟨?_, h2, h3, h4, h5⟩
        intro v hv2
        rcases List.mem_append.mp hv2 with hl | hr
        · exact Nat.lt_succ_of_lt (h1 v hl)
        · rw [List.mem_singleton] at hr
          subst hr
          exact Nat.lt_succ_self _

theorem inv_update_user (db : DB) (id : Nat) (p : Payload) (fail : Option String)
    (h : Inv db) : Inv (update_user db id p fail).1 := by
  obtain ⟨h1, h2, h3, h4, h5⟩ := h
  unfold update_user
  cases hu : findUser db id with
  | none => exact ⟨h1, h2, h3, h4, h5⟩
  | some u =>
    cases hv : validateUserUpd p with
    | error msgs => exact ⟨h1, h2, h3, h4, h5⟩
    | ok d =>
      cases fail with
      | some m => exact ⟨h1, h2, h3, h4, h5⟩
      | none =>
        refine ⟨?_, h2, h3, h4, h5⟩
        intro v hv2
        rcases List.mem_map.mp hv2 with ⟨w, hw, rfl⟩
        by_cases hwid : w.id = id
        · rw [if_pos hwid]
          exact h1 u (List.mem_of_find?_eq_some hu)
        · rw [if_neg hwid]
          exact h1 w hw

theorem inv_delete_user (db : DB) (id : Nat) (fail : Option String) (h : Inv db) :
    Inv (delete_user db id fail).1 := by
  obtain ⟨h1, h2, h3, h4, h5⟩ := h
  unfold delete_user
  cases hu : findUser db id with
  | none => exact ⟨h1, h2, h3, h4, h5⟩
  | some u =>
    dsimp only
    by_cases ho : (db.orders.find? (fun o => o.user_id = (id : Int))).isSome
    · rw [if_pos ho]
      exact ⟨h1, h2, h3, h4, h5⟩
    · rw [if_neg ho]
      cases fail with
      | some m => exact ⟨h1, h2, h3, h4, h5⟩
      | none =>
        refine ⟨?_, h2, h3, h4, h5⟩
        intro v hv2
        exact h1 v (List.mem_of_mem_filter hv2)

theorem inv_create_product (db : DB) (p : Payload) (fail : Option String) (h : Inv db) :
    Inv (create_product db p fail).1 := by
  obtain ⟨h1, h2, h3, h4, h5⟩ := h
  unfold create_product
  cases hv : validateProduct p with
  | error msgs => exact ⟨h1, h2, h3, h4, h5⟩
  | ok d =>
    cases fail with
    | some m => exact ⟨h1, h2, h3, h4, h5⟩
    | none =>
      refine ⟨h1, ?_, h3, ?_, h5⟩
      · intro v hv2
        rcases List.mem_append.mp hv2 with hl | hr
        · exact Nat.lt_succ_of_lt (h2 v hl)
        · rw [List.mem_singleton] at hr
          subst hr
          exact Nat.lt_succ_self _
      · intro r hr
        obtain ⟨horder, pr0, hp0, hpid⟩ := h4 r hr
        exact ⟨horder, pr0, List.mem_append_left _ hp0, hpid⟩

theorem inv_update_product (db : DB) (id : Nat) (p : Payload) (fail : Option String)
    (h : Inv db) : Inv (update_product db id p fail).1 := by
  obtain ⟨h1, h2, h3, h4, h5⟩ := h
  unfold update_product
  cases hp : findProduct db id with
  | none => exact ⟨h1, h2, h3, h4, h5⟩
  | some pr =>
    cases hv : validateProductUpd p with
    | error msgs => exact ⟨h1, h2, h3, h4, h5⟩
    | ok d =>
      cases fail with
      | some m => exact ⟨h1, h2, h3, h4, h5⟩
      | none =>
        have hprid : pr.id = id := by
          have := List.find?_some hp
          simpa using this
        refine ⟨h1, ?_, h3, ?_, h5⟩
        · intro v hv2
          rcases List.mem_map.mp hv2 with ⟨w, hw, rfl⟩
          by_cases hwid : w.id = id
          · rw [if_pos hwid]
            exact h2 pr (List.mem_of_find?_eq_some hp)
          · rw [if_neg hwid]
            exact h2 w hw
        · intro r hr
          obtain ⟨horder, pr0, hp0, hpid⟩ := h4 r hr
          refine ⟨horder, ?_⟩
          by_cases hp0id : pr0.id = id
          · refine ⟨applyProductUpd pr d, ?_, ?_⟩
            · have hmem := List.mem_map_of_mem
                (fun v => if v.id = id then applyProductUpd pr d else v) hp0
              dsimp only at hmem
              rw [if_pos hp0id] at hmem
              exact hmem
            · show pr.id = r.2
              rw [hprid, ← hp0id, hpid]
          · refine ⟨pr0, ?_, hpid⟩
            have hmem := List.mem_map_of_mem
              (fun v => if v.id = id then applyProductUpd pr d else v) hp0
            dsimp only at hmem
            rw [if_neg hp0id] at hmem
            exact hmem

theorem inv_delete_product (db : DB) (id : Nat) (fail : Option String) (h : Inv db) :
    Inv (delete_product db id fail).1 := by
  obtain ⟨h1, h2, h3, h4, h5⟩ := h
  unfold delete_product
  cases hp : findProduct db id with
  | none => exact ⟨h1, h2, h3, h4, h5⟩
  | some pr =>
    cases fail with
    | some m => exact ⟨h1, h2, h3, h4, h5⟩
    | none =>
      refine ⟨h1, ?_, h3, ?_, h5.filter _⟩
      · intro v hv2
        exact h2 v (List.mem_of_mem_filter hv2)
      · intro r hr
        have hr' : r ∈ db.orderProducts := List.mem_of_mem_filter hr
        have hrne : r.2 ≠ id := by
          have := List.of_mem_filter hr
          simpa using this
        obtain ⟨horder, pr0, hp0, hpid⟩ := h4 r hr'
        refine ⟨horder, pr0, List.mem_filter.mpr ⟨hp0, ?_⟩, hpid⟩
        simp [hpid, hrne]

theorem inv_create_order (db : DB) (p : Payload) (now : String) (fail : Option String)
    (h : Inv db) : Inv (create_order db p now fail).1 := by
  obtain ⟨h1, h2, h3, h4, h5⟩ := h
  unfold create_order
  cases hv : validateOrder p with
  | error msgs => exact ⟨h1, h2, h3, h4, h5⟩
  | ok d =>
    dsimp only
    by_cases hu : (db.users.find? (fun u => (u.id : Int) = d.user_id)).isNone
    · rw [if_pos hu]
      exact ⟨h1, h2, h3, h4, h5⟩
    · rw [if_neg hu]
      cases fail with
      | some m => exact ⟨h1, h2, h3, h4, h5⟩
      | none =>
        refine ⟨h1, ?_, ?_, ?_, ?_⟩
        · intro v hv2
          rcases List.mem_append.mp hv2 with hl | hr
          · exact Nat.lt_of_lt_of_le (h2 v hl) (Nat.le_add_right _ _)
          · exact (mkProducts_id_bounds hr).2
        · intro o ho2
          rcases List.mem_append.mp ho2 with hl | hr
          · exact Nat.lt_succ_of_lt (h3 o hl)
          · rw [List.mem_singleton] at hr
            subst hr
            exact Nat.lt_succ_self _
        · intro r hr
          rcases List.mem_append.mp hr with hl | hr2
          · obtain ⟨⟨o, ho2, hoid⟩, pr0, hp0, hpid⟩ := h4 r hl
            exact ⟨⟨o, List.mem_append_left _ ho2, hoid⟩,
              pr0, List.mem_append_left _ hp0, hpid⟩
          · obtain ⟨pr0, hpr0, rfl⟩ := List.mem_map.mp hr2
            exact ⟨⟨⟨db.nextOrderId, d.order_date.getD now, d.user_id⟩,
                List.mem_append_right _ (List.mem_singleton.mpr rfl), rfl⟩,
              pr0, List.mem_append_right _ hpr0, rfl⟩
        · refine List.Nodup.append h5 (mkProducts_rows_nodup _ _ _) ?_
          intro a ha hb
          obtain ⟨⟨o, ho2, hoid⟩, _⟩ := h4 a ha
          have hlt : a.1 < db.nextOrderId := by
            rw [← hoid]
            exact h3 o ho2
          obtain ⟨pr0, _, rfl⟩ := List.mem_map.mp hb
          exact Nat.lt_irrefl _ hlt

theorem inv_add_product_to_order (db : DB) (oid pid : Nat) (fail : Option String)
    (h : Inv db) : Inv (add_product_to_order db oid pid fail).1 := by
  obtain ⟨h1, h2, h3, h4, h5⟩ := h
  unfold add_product_to_order
  cases ho : findOrder db oid with
  | none => exact ⟨h1, h2, h3, h4, h5⟩
  | some o =>
    cases hp : findProduct db pid with
    | none => exact ⟨h1, h2, h3, h4, h5⟩
    | some pr =>
      dsimp only
      by_cases hmem : (oid, pid) ∈ db.orderProducts
      · rw [if_pos hmem]
        exact ⟨h1, h2, h3, h4, h5⟩
      · rw [if_neg hmem]
        cases fail with
        | some m => exact ⟨h1, h2, h3, h4, h5⟩
        | none =>
          refine ⟨h1, h2, h3, ?_, ?_⟩
          · intro r hr
            rcases List.mem_append.mp hr with hl | hr2
            · exact h4 r hl
            · rw [List.mem_singleton] at hr2
              subst hr2
              have hoid : o.id = oid := by
                have := List.find?_some ho
                simpa using this
              have hpid : pr.id = pid := by
                have := List.find?_some hp
                simpa using this
              exact ⟨⟨o, List.mem_of_find?_eq_some ho, hoid⟩,
                pr, List.mem_of_find?_eq_some hp, hpid⟩
          · refine List.Nodup.append h5 (List.nodup_singleton _) ?_
            intro a ha hb
            rw [List.mem_singleton] at hb
            subst hb
            exact hmem ha

theorem inv_remove_product_from_order (db : DB) (oid pid : Nat) (fail : Option String)
    (h : Inv db) : Inv (remove_product_from_order db oid pid fail).1 := by
  obtain ⟨h1, h2, h3, h4, h5⟩ := h
  unfold remove_product_from_order
  cases ho : findOrder db oid with
  | none => exact ⟨h1, h2, h3, h4, h5⟩
  | some o =>
    cases hp : findProduct db pid with
    | none => exact ⟨h1, h2, h3, h4, h5⟩
    | some pr =>
      dsimp only
      by_cases hmem : (oid, pid) ∈ db.orderProducts
      · rw [if_pos hmem]
        cases fail with
        | some m => exact ⟨h1, h2, h3, h4, h5⟩
        | none =>
          refine ⟨h1, h2, h3, ?_, h5.filter _⟩
          intro r hr
          exact h4 r (List.mem_of_mem_filter hr)
      · rw [if_neg hmem]
        exact ⟨h1, h2, h3, h4, h5⟩

theorem inv_step (db : DB) (r : Request) (fail : Option String) (h : Inv db) :
    Inv (step db r fail).1 := by
  cases r with
  | getAllUsers => exact h
  | getUser id =>
      show Inv (get_user db id).1
      rw [get_user_state]
      exact h
  | addUser p => exact inv_add_user db p fail h
  | updateUser id p => exact inv_update_user db id p fail h
  | deleteUser id => exact inv_delete_user db id fail h
  | getAllProducts => exact h
  | getProduct id =>
      show Inv (get_product db id).1
      rw [get_product_state]
      exact h
  | createProduct p => exact inv_create_product db p fail h
  | updateProduct id p => exact inv_update_product db id p fail h
  | deleteProduct id => exact inv_delete_product db id fail h
  | createOrder p now => exact inv_create_order db p now fail h
  | addProductToOrder oid pid => exact inv_add_product_to_order db oid pid fail h
  | removeProductFromOrder oid pid => exact inv_remove_product_from_order db oid pid fail h
  | getUserOrders uid => exact h
  | getOrderProducts oid =>
      show Inv (get_order_products db oid).1
      rw [get_order_products_state]
      exact h

-- ----------------------------------------------------------------------
-- Concrete fixtures used by the witnesses
-- ----------------------------------------------------------------------

def userA : User := ⟨1, "Alice", "1 Main St", "alice@example.com"⟩

def prodW : Product := ⟨1, "Widget", 5⟩

def orderO : Order := ⟨1, "2026-01-01T00:00:00", 1⟩

/-- A small store with one user, one product and one order (no
associations). -/
def dbSeed : DB := ⟨[userA], [prodW], [orderO], [], 2, 2, 2⟩

theorem inv_dbSeed : Inv dbSeed := by
  refine ⟨?_, ?_, ?_, ?_, ?_⟩ <;> decide

-- ----------------------------------------------------------------------
-- C1
-- ----------------------------------------------------------------------

/-- C1: a create-User request whose payload email equals the email of an
already-persisted user returns 400 with an error body and leaves the store
(in particular the set of persisted User rows) unchanged. -/
theorem c1_duplicate_email_create_user (db : DB) (p : Payload) (fail : Option String)
    (u : User) (e : String) (hu : u ∈ db.users) (hmail : u.email = e)
    (hp : lookup p "email" = some (JVal.jstr e)) :
    (add_user db p fail).1 = db ∧ (add_user db p fail).2.status = 400 ∧
    ((add_user db p fail).2.body = Body.errorMsg "User with this email already exists" ∨
      ∃ msgs, (add_user db p fail).2.body = Body.fieldErrors msgs) := by
  unfold add_user
  cases hv : validateUser p with
  | error msgs => exact ⟨rfl, rfl, Or.inr ⟨msgs, rfl⟩⟩
  | ok d =>
    dsimp only
    have hde : d.email = e := by
      rw [validateUser_ok hv]
      show getStr p "email" = e
      unfold getStr
      rw [hp]
    have hs : (db.users.find? (fun v => v.email = d.email)).isSome := by
      rw [List.find?_isSome]
      exact ⟨u, hu, by simp [hmail, hde]⟩
    rw [if_pos hs]
    exact ⟨rfl, rfl, Or.inl rfl⟩

def payDupEmail : Payload :=
  [("name", JVal.jstr "Bob"), ("address", JVal.jstr "2 Oak Ave"),
   ("email", JVal.jstr "alice@example.com")]

theorem c1_duplicate_email_create_user_witness :
    (add_user dbSeed payDupEmail none).1 = dbSeed ∧
    (add_user dbSeed payDupEmail none).2.status = 400 ∧
    ((add_user dbSeed payDupEmail none).2.body
        = Body.errorMsg "User with this email already exists" ∨
      ∃ msgs, (add_user dbSeed payDupEmail none).2.body = Body.fieldErrors msgs) :=
  c1_duplicate_email_create_user dbSeed payDupEmail none userA "alice@example.com"
    (List.mem_singleton.mpr rfl) rfl rfl

-- ----------------------------------------------------------------------
-- C5
-- ----------------------------------------------------------------------

/-- C5 (code bug): a delete of a User or Product whose id has no row
returns 500, not the specified 404, because the `NotFound` raised by
`get_or_404` is caught by the blanket `except Exception` handler of the
delete endpoints; the store is unchanged.  When a row does match, deletion
works as specified (row removed, confirmation message, 200). -/
theorem c5_delete_missing_gives_500 :
    (delete_user emptyDB 1 none).2.status = 500 ∧
    ((delete_user emptyDB 1 none).2.status == 404) = false ∧
    (delete_user emptyDB 1 none).1 = emptyDB ∧
    (delete_product emptyDB 1 none).2.status = 500 ∧
    ((delete_product emptyDB 1 none).2.status == 404) = false ∧
    (delete_product emptyDB 1 none).1 = emptyDB ∧
    (delete_product dbSeed 1 none).2 = ⟨200, Body.message "Product deleted"⟩ ∧
    (delete_product dbSeed 1 none).1.products = [] :=
  ⟨rfl, rfl, rfl, rfl, rfl, rfl, rfl, rfl⟩

-- ----------------------------------------------------------------------
-- C7
-- ----------------------------------------------------------------------

/-- C7 counterexample: creating an order whose `user_id` references no
existing user returns 500 (the store's foreign-key violation caught by the
blanket handler), not the claimed 400; no order row is persisted. -/
theorem c7_counterexample_status_500_not_400 :
    (create_order emptyDB [("user_id", JVal.jnum 1)] "2026-01-01T00:00:00" none).2
      = ⟨500, Body.errorMsg orderUserFkMsg⟩ ∧
    ((create_order emptyDB [("user_id", JVal.jnum 1)] "2026-01-01T00:00:00" none).2.status
      == 400) = false ∧
    (create_order emptyDB [("user_id", JVal.jnum 1)] "2026-01-01T00:00:00" none).1
      = emptyDB :=
  ⟨rfl, rfl, rfl⟩

/-- C7 (amended): for every create-Order request that passes validation but
whose `user_id` references no existing User, the operation fails with 500
(the foreign-key violation surfacing as a store error) and no Order row is
persisted. -/
theorem c7_missing_user_order_500 (db : DB) (p : Payload) (now : String)
    (fail : Option String) (d : OrderData) (hv : validateOrder p = Except.ok d)
    (hnone : db.users.find? (fun u => (u.id : Int) = d.user_id) = none) :
    create_order db p now fail = (db, ⟨500, Body.errorMsg orderUserFkMsg⟩) := by
  unfold create_order
  rw [hv]
  dsimp only
  rw [hnone]
  rfl

theorem c7_missing_user_order_500_witness :
    validateOrder [("user_id", JVal.jnum 1)] = Except.ok ⟨1, none, []⟩ ∧
    create_order emptyDB [("user_id", JVal.jnum 1)] "2026-01-01T00:00:00" none
      = (emptyDB, ⟨500, Body.errorMsg orderUserFkMsg⟩) :=
  ⟨rfl, c7_missing_user_order_500 emptyDB [("user_id", JVal.jnum 1)]
    "2026-01-01T00:00:00" none ⟨1, none, []⟩ rfl rfl⟩

-- ----------------------------------------------------------------------
-- C8
-- ----------------------------------------------------------------------

/-- C8 counterexample: a create-Product request missing the required
`price` field gets status 400 and no write occurs, but the body is the
stringified error under an "error" key, not the structured field-to-message
mapping the claim requires. -/
theorem c8_counterexample_stringified_body :
    (create_product emptyDB [("product_name", JVal.jstr "Widget")] none).2.status = 400 ∧
    isFieldMapping (create_product emptyDB [("product_name", JVal.jstr "Widget")] none).2.body
      = false ∧
    (create_product emptyDB [("product_name", JVal.jstr "Widget")] none).2.body
      = Body.errorMsg (msgsToString [("price", missingMsg)]) ∧
    (create_product emptyDB [("product_name", JVal.jstr "Widget")] none).1 = emptyDB :=
  ⟨rfl, rfl, rfl, rfl⟩

/-- C8 (amended): every create or update request with a malformed payload
gets status 400 and no write occurs; the body is the structured
field-to-message mapping only for create-User, while create-Product,
create-Order and both update endpoints return a single stringified error
message. -/
theorem c8_validation_failure_400_no_write (db : DB) (fail : Option String) (now : String)
    (pU pP pO pUu pPu : Payload) (uid pid : Nat) (u : User) (pr : Product)
    (msgsU msgsP msgsO msgsUu msgsPu : List (String × String))
    (hU : validateUser pU = Except.error msgsU)
    (hP : validateProduct pP = Except.error msgsP)
    (hO : validateOrder pO = Except.error msgsO)
    (hu : findUser db uid = some u)
    (hUu : validateUserUpd pUu = Except.error msgsUu)
    (hp : findProduct db pid = some pr)
    (hPu : validateProductUpd pPu = Except.error msgsPu) :
    add_user db pU fail = (db, ⟨400, Body.fieldErrors msgsU⟩) ∧
    create_product db pP fail = (db, ⟨400, Body.errorMsg (msgsToString msgsP)⟩) ∧
    create_order db pO now fail = (db, ⟨400, Body.errorMsg (msgsToString msgsO)⟩) ∧
    update_user db uid pUu fail = (db, ⟨400, Body.errorMsg (msgsToString msgsUu)⟩) ∧
    update_product db pid pPu fail = (db, ⟨400, Body.errorMsg (msgsToString msgsPu)⟩) := by
  refine ⟨?_, ?_, ?_, ?_, ?_⟩
  · unfold add_user
    rw [hU]
  · unfold create_product
    rw [hP]
  · unfold create_order
    rw [hO]
  · unfold update_user
    rw [hu, hUu]
  · unfold update_product
    rw [hp, hPu]

theorem c8_validation_failure_400_no_write_witness :
    add_user dbSeed [] none = (dbSeed, ⟨400, Body.fieldErrors
      [("name", missingMsg), ("address", missingMsg), ("email", missingMsg)]⟩) ∧
    create_product dbSeed [] none = (dbSeed, ⟨400, Body.errorMsg
      (msgsToString [("product_name", missingMsg), ("price", missingMsg)])⟩) ∧
    create_order dbSeed [] "2026-01-01T00:00:00" none = (dbSeed, ⟨400, Body.errorMsg
      (msgsToString [("user_id", missingMsg)])⟩) ∧
    update_user dbSeed 1 [("id", JVal.jnum 2)] none = (dbSeed, ⟨400, Body.errorMsg
      (msgsToString [("id", unknownMsg)])⟩) ∧
    update_product dbSeed 1 [("id", JVal.jnum 2)] none = (dbSeed, ⟨400, Body.errorMsg
      (msgsToString [("id", unknownMsg)])⟩) :=
  c8_validation_failure_400_no_write dbSeed none "2026-01-01T00:00:00" [] [] []
    [("id", JVal.jnum 2)] [("id", JVal.jnum 2)] 1 1 userA prodW
    [("name", missingMsg), ("address", missingMsg), ("email", missingMsg)]
    [("product_name", missingMsg), ("price", missingMsg)]
    [("user_id", missingMsg)] [("id", unknownMsg)] [("id", unknownMsg)]
    rfl rfl rfl rfl rfl rfl rfl

-- ----------------------------------------------------------------------
-- C9
-- ----------------------------------------------------------------------

/-- C9: every successful create (User, Product, Order) persists the entity
and answers 201 with the created entity, carrying its server-assigned id,
in the body. -/
theorem c9_create_success_201 (db : DB) (pU pP pO : Payload) (now : String)
    (dU : UserData) (dP : ProductData) (dO : OrderData) (uEx : User)
    (hU : validateUser pU = Except.ok dU)
    (hdup : db.users.find? (fun v => v.email = dU.email) = none)
    (hP : validateProduct pP = Except.ok dP)
    (hO : validateOrder pO = Except.ok dO)
    (hUex : db.users.find? (fun v => (v.id : Int) = dO.user_id) = some uEx) :
    add_user db pU none = ({ db with
        users := db.users ++ [⟨db.nextUserId, dU.name, dU.address, dU.email⟩],
        nextUserId := db.nextUserId + 1 },
      ⟨201, Body.userCreated "New user added successfully!"
        ⟨db.nextUserId, dU.name, dU.address, dU.email⟩⟩) ∧
    create_product db pP none = ({ db with
        products := db.products ++ [⟨db.nextProductId, dP.product_name, dP.price⟩],
        nextProductId := db.nextProductId + 1 },
      ⟨201, Body.productBody ⟨db.nextProductId, dP.product_name, dP.price⟩⟩) ∧
    create_order db pO now none = ({ db with
        orders := db.orders ++ [⟨db.nextOrderId, dO.order_date.getD now, dO.user_id⟩],
        products := db.products ++ mkProducts db.nextProductId dO.products,
        orderProducts := db.orderProducts ++ (mkProducts db.nextProductId dO.products).map
          (fun pr => (db.nextOrderId, pr.id)),
        nextOrderId := db.nextOrderId + 1,
        nextProductId := db.nextProductId + dO.products.length },
      ⟨201, Body.orderBody ⟨db.nextOrderId, dO.order_date.getD now, dO.user_id⟩
        (mkProducts db.nextProductId dO.products)⟩) := by
  refine ⟨?_, ?_, ?_⟩
  · unfold add_user
    rw [hU]
    dsimp only
    rw [hdup]
    rfl
  · unfold create_product
    rw [hP]
  · unfold create_order
    rw [hO]
    dsimp only
    rw [hUex]
    rfl

def payNewUser : Payload :=
  [("name", JVal.jstr "Bob"), ("address", JVal.jstr "2 Oak Ave"),
   ("email", JVal.jstr "bob@example.com")]

def payNewProduct : Payload :=
  [("product_name", JVal.jstr "Gadget"), ("price", JVal.jnum 3)]

def payNewOrder : Payload := [("user_id", JVal.jnum 1)]

theorem c9_create_success_201_witness :
    (add_user dbSeed payNewUser none).2.status = 201 ∧
    (add_user dbSeed payNewUser none).1.users
      = [userA, ⟨2, "Bob", "2 Oak Ave", "bob@example.com"⟩] ∧
    (add_user dbSeed payNewUser none).2.body = Body.userCreated
      "New user added successfully!" ⟨2, "Bob", "2 Oak Ave", "bob@example.com"⟩ ∧
    (create_product dbSeed payNewProduct none).2.status = 201 ∧
    (create_product dbSeed payNewProduct none).1.products = [prodW, ⟨2, "Gadget", 3⟩] ∧
    (create_product dbSeed payNewProduct none).2.body = Body.productBody ⟨2, "Gadget", 3⟩ ∧
    (create_order dbSeed payNewOrder "2026-02-02T00:00:00" none).2.status = 201 ∧
    (create_order dbSeed payNewOrder "2026-02-02T00:00:00" none).1.orders
      = [orderO, ⟨2, "2026-02-02T00:00:00", 1⟩] ∧
    (create_order dbSeed payNewOrder "2026-02-02T00:00:00" none).2.body
      = Body.orderBody ⟨2, "2026-02-02T00:00:00", 1⟩ [] := by
  have h := c9_create_success_201 dbSeed payNewUser payNewProduct payNewOrder
    "2026-02-02T00:00:00" ⟨"Bob", "2 Oak Ave", "bob@example.com"⟩ ⟨"Gadget", 3⟩
    ⟨1, none, []⟩ userA rfl rfl rfl rfl rfl
  refine ⟨?_, ?_, ?_, ?_, ?_, ?_, ?_, ?_, ?_⟩ <;>
    (first
      | rw [h.1]
      | rw [h.2.1]
      | rw [h.2.2]) <;>
    rfl

-- ----------------------------------------------------------------------
-- Shared helpers for the association claims
-- ----------------------------------------------------------------------

theorem add_product_success_state (db : DB) (oid pid : Nat) (o : Order) (pr : Product)
    (ho : findOrder db oid = some o) (hp : findProduct db pid = some pr)
    (hnot : (oid, pid) ∉ db.orderProducts) :
    add_product_to_order db oid pid none
      = ({ db with orderProducts := db.orderProducts ++ [(oid, pid)] },
         ⟨200, Body.orderBody o
           (orderProductsOf { db with orderProducts := db.orderProducts ++ [(oid, pid)] } oid)⟩) := by
  unfold add_product_to_order
  rw [ho, hp]
  dsimp only
  rw [if_neg hnot]

theorem delete_product_success_assoc (db : DB) (pid : Nat) (fail : Option String)
    (hst : (delete_product db pid fail).2.status = 200) :
    (delete_product db pid fail).1.orderProducts
      = db.orderProducts.filter (fun r => r.2 ≠ pid) := by
  unfold delete_product at hst ⊢
  cases hp : findProduct db pid with
  | none =>
    rw [hp] at hst
    dsimp only at hst
    exact absurd hst (by decide)
  | some pr =>
    cases fail with
    | some m =>
      rw [hp] at hst
      dsimp only at hst
      exact absurd hst (by decide)
    | none => rfl

-- ----------------------------------------------------------------------
-- C4
-- ----------------------------------------------------------------------

/-- C4: for an existing order and product not currently associated, adding
the product to the order and then immediately removing it restores the
store, and in particular the order's product list, to its prior state. -/
theorem c4_add_then_remove_roundtrip (db : DB) (oid pid : Nat) (o : Order) (pr : Product)
    (ho : findOrder db oid = some o) (hp : findProduct db pid = some pr)
    (hnot : (oid, pid) ∉ db.orderProducts) :
    (remove_product_from_order (add_product_to_order db oid pid none).1 oid pid none).1
      = db ∧
    orderProductsOf
      (remove_product_from_order (add_product_to_order db oid pid none).1 oid pid none).1 oid
      = orderProductsOf db oid := by
  have hadd : (add_product_to_order db oid pid none).1
      = { db with orderProducts := db.orderProducts ++ [(oid, pid)] } := by
    rw [add_product_success_state db oid pid o pr ho hp hnot]
  have hfilter : (db.orderProducts ++ [(oid, pid)]).filter (fun r => r ≠ (oid, pid))
      = db.orderProducts := by
    rw [List.filter_append]
    have h1 : db.orderProducts.filter (fun r => r ≠ (oid, pid)) = db.orderProducts := by
      rw [List.filter_eq_self]
      intro a ha
      simp only [ne_eq, decide_not, Bool.not_eq_eq_eq_not, Bool.not_true, decide_eq_false_iff_not]
      intro hc
      exact hnot (hc ▸ ha)
    have h2 : [(oid, pid)].filter (fun r => r ≠ (oid, pid)) = ([] : List (Nat × Nat)) := by
      simp
    rw [h1, h2, List.append_nil]
  have hstate : (remove_product_from_order (add_product_to_order db oid pid none).1
      oid pid none).1 = db := by
    rw [hadd]
    unfold remove_product_from_order
    have ho1 : findOrder { db with orderProducts := db.orderProducts ++ [(oid, pid)] } oid
        = some o := ho
    have hp1 : findProduct { db with orderProducts := db.orderProducts ++ [(oid, pid)] } pid
        = some pr := hp
    rw [ho1, hp1]
    dsimp only
    have hmem : (oid, pid) ∈ db.orderProducts ++ [(oid, pid)] :=
      List.mem_append_right _ (List.mem_singleton.mpr rfl)
    rw [if_pos hmem]
    dsimp only
    rw [hfilter]
  exact ⟨hstate, by rw [hstate]⟩

theorem c4_add_then_remove_roundtrip_witness :
    (remove_product_from_order (add_product_to_order dbSeed 1 1 none).1 1 1 none).1
      = dbSeed ∧
    orderProductsOf
      (remove_product_from_order (add_product_to_order dbSeed 1 1 none).1 1 1 none).1 1
      = orderProductsOf dbSeed 1 :=
  c4_add_then_remove_roundtrip dbSeed 1 1 orderO prodW rfl rfl (by decide)

-- ----------------------------------------------------------------------
-- C3
-- ----------------------------------------------------------------------

/-- C3: with an existing order and product whose pair is not yet
associated, adding the product twice in succession returns 400 with
"Product already in order" on the second call, after which exactly one
association row exists for the pair; moreover every operation preserves
the uniqueness of the `(order_id, product_id)` pairs. -/
theorem c3_duplicate_association_rejected (db : DB) (oid pid : Nat) (o : Order)
    (pr : Product) (fail2 : Option String)
    (ho : findOrder db oid = some o) (hp : findProduct db pid = some pr)
    (hnot : (oid, pid) ∉ db.orderProducts) :
    (add_product_to_order (add_product_to_order db oid pid none).1 oid pid fail2).2
      = ⟨400, Body.errorMsg "Product already in order"⟩ ∧
    ((add_product_to_order (add_product_to_order db oid pid none).1 oid pid fail2).1.orderProducts.filter
      (fun r => r = (oid, pid))).length = 1 ∧
    (∀ db' r f, Inv db' → ((step db' r f).1).orderProducts.Nodup) := by
  have hadd : (add_product_to_order db oid pid none).1
      = { db with orderProducts := db.orderProducts ++ [(oid, pid)] } := by
    rw [add_product_success_state db oid pid o pr ho hp hnot]
  have ho1 : findOrder { db with orderProducts := db.orderProducts ++ [(oid, pid)] } oid
      = some o := ho
  have hp1 : findProduct { db with orderProducts := db.orderProducts ++ [(oid, pid)] } pid
      = some pr := hp
  have hmem : (oid, pid) ∈ db.orderProducts ++ [(oid, pid)] :=
    List.mem_append_right _ (List.mem_singleton.mpr rfl)
  have hsecond : add_product_to_order (add_product_to_order db oid pid none).1 oid pid fail2
      = ({ db with orderProducts := db.orderProducts ++ [(oid, pid)] },
         ⟨400, Body.errorMsg "Product already in order"⟩) := by
    rw [hadd]
    unfold add_product_to_order
    rw [ho1, hp1]
    dsimp only
    rw [if_pos hmem]
  refine ⟨by rw [hsecond], ?_, ?_⟩
  · rw [hsecond]
    show ((db.orderProducts ++ [(oid, pid)]).filter (fun r => r = (oid, pid))).length = 1
    rw [List.filter_append]
    have h1 : db.orderProducts.filter (fun r => r = (oid, pid)) = [] := by
      rw [List.filter_eq_nil_iff]
      intro a ha
      simp only [decide_eq_true_eq]
      intro hc
      exact hnot (hc ▸ ha)
    rw [h1]
    simp
  · intro db' r f hInv
    exact (inv_step db' r f hInv).2.2.2.2

theorem c3_duplicate_association_rejected_witness :
    (add_product_to_order (add_product_to_order dbSeed 1 1 none).1 1 1 none).2
      = ⟨400, Body.errorMsg "Product already in order"⟩ ∧
    ((add_product_to_order (add_product_to_order dbSeed 1 1 none).1 1 1 none).1.orderProducts.filter
      (fun r => r = (1, 1))).length = 1 :=
  ⟨(c3_duplicate_association_rejected dbSeed 1 1 orderO prodW none rfl rfl (by decide)).1,
   (c3_duplicate_association_rejected dbSeed 1 1 orderO prodW none rfl rfl (by decide)).2.1⟩

-- ----------------------------------------------------------------------
-- C10
-- ----------------------------------------------------------------------

/-- C10: from a well-formed store, after any operation every OrderProduct
row still references an existing Order and an existing Product; and a
successful Product delete removes every association row referencing the
deleted product.  (No endpoint deletes an Order, so order references can
never dangle.) -/
theorem c10_no_dangling_associations (db : DB) (r : Request) (fail : Option String)
    (pid : Nat) (hInv : Inv db) :
    (∀ row ∈ (step db r fail).1.orderProducts,
        (∃ o ∈ (step db r fail).1.orders, o.id = row.1) ∧
        (∃ pr ∈ (step db r fail).1.products, pr.id = row.2)) ∧
    ((delete_product db pid fail).2.status = 200 →
      ∀ row ∈ (delete_product db pid fail).1.orderProducts, row.2 ≠ pid) := by
  refine ⟨(inv_step db r fail hInv).2.2.2.1, ?_⟩
  intro hst row hrow
  rw [delete_product_success_assoc db pid fail hst] at hrow
  have := List.of_mem_filter hrow
  simpa using this

-- ----------------------------------------------------------------------
-- C2
-- ----------------------------------------------------------------------

/-- C2: a partial update (PUT) of a User or Product leaves every stored
field that is absent from the payload at its prior value and never alters
the entity's id; a payload supplying an `id` (in particular a different
one) is rejected with 400 and no change. -/
theorem c2_partial_update_frame (db : DB) (fail : Option String) (uid pid : Nat)
    (pU pP : Payload) (u : User) (pr : Product)
    (hu : findUser db uid = some u) (hp : findProduct db pid = some pr) :
    (∀ u', findUser (update_user db uid pU fail).1 uid = some u' →
      u'.id = u.id ∧
      (lookup pU "name" = none → u'.name = u.name) ∧
      (lookup pU "address" = none → u'.address = u.address) ∧
      (lookup pU "email" = none → u'.email = u.email)) ∧
    ((lookup pU "id").isSome →
      (update_user db uid pU fail).1 = db ∧ (update_user db uid pU fail).2.status = 400) ∧
    (∀ pr', findProduct (update_product db pid pP fail).1 pid = some pr' →
      pr'.id = pr.id ∧
      (lookup pP "product_name" = none → pr'.product_name = pr.product_name) ∧
      (lookup pP "price" = none → pr'.price = pr.price)) ∧
    ((lookup pP "id").isSome →
      (update_product db pid pP fail).1 = db ∧ (update_product db pid pP fail).2.status = 400) := by
  refine ⟨?_, ?_, ?_, ?_⟩
  · intro u' hu'
    unfold update_user at hu'
    rw [hu] at hu'
    dsimp only at hu'
    cases hv : validateUserUpd pU with
    | error msgs =>
      rw [hv] at hu'
      dsimp only at hu'
      rw [hu] at hu'
      injection hu' with heq
      subst heq
      exact ⟨rfl, fun _ => rfl, fun _ => rfl, fun _ => rfl⟩
    | ok d =>
      rw [hv] at hu'
      dsimp only at hu'
      cases fail with
      | some m =>
        rw [hu] at hu'
        injection hu' with heq
        subst heq
        exact ⟨rfl, fun _ => rfl, fun _ => rfl, fun _ => rfl⟩
      | none =>
        have huid : u.id = uid := by
          have := List.find?_some hu
          simpa using this
        have hfind : (db.users.map
            (fun v => if v.id = uid then applyUserUpd u d else v)).find?
            (fun v => v.id = uid) = some (applyUserUpd u d) :=
          find?_map_set_user db.users uid u (applyUserUpd u d) hu huid
        have hcomb : some (applyUserUpd u d) = some u' := hfind.symm.trans hu'
        injection hcomb with heq
        subst heq
        have hd := validateUserUpd_ok hv
        subst hd
        refine ⟨rfl, ?_, ?_, ?_⟩
        · intro hn
          show (getStrOpt pU "name").getD u.name = u.name
          unfold getStrOpt
          rw [hn]
          rfl
        · intro hn
          show (getStrOpt pU "address").getD u.address = u.address
          unfold getStrOpt
          rw [hn]
          rfl
        · intro hn
          show (getStrOpt pU "email").getD u.email = u.email
          unfold getStrOpt
          rw [hn]
          rfl
  · intro hk
    obtain ⟨msgs, hv⟩ := validateUserUpd_id_err hk
    constructor
    · show (update_user db uid pU fail).1 = db
      unfold update_user
      rw [hu, hv]
    · show (update_user db uid pU fail).2.status = 400
      unfold update_user
      rw [hu, hv]
  · intro pr' hp'
    unfold update_product at hp'
    rw [hp] at hp'
    dsimp only at hp'
    cases hv : validateProductUpd pP with
    | error msgs =>
      rw [hv] at hp'
      dsimp only at hp'
      rw [hp] at hp'
      injection hp' with heq
      subst heq
      exact ⟨rfl, fun _ => rfl, fun _ => rfl⟩
    | ok d =>
      rw [hv] at hp'
      dsimp only at hp'
      cases fail with
      | some m =>
        rw [hp] at hp'
        injection hp' with heq
        subst heq
        exact ⟨rfl, fun _ => rfl, fun _ => rfl⟩
      | none =>
        have hpid : pr.id = pid := by
          have := List.find?_some hp
          simpa using this
        have hfind : (db.products.map
            (fun v => if v.id = pid then applyProductUpd pr d else v)).find?
            (fun v => v.id = pid) = some (applyProductUpd pr d) :=
          find?_map_set_product db.products pid pr (applyProductUpd pr d) hp hpid
        have hcomb : some (applyProductUpd pr d) = some pr' := hfind.symm.trans hp'
        injection hcomb with heq
        subst heq
        have hd := validateProductUpd_ok hv
        subst hd
        refine ⟨rfl, ?_, ?_⟩
        · intro hn
          show (getStrOpt pP "product_name").getD pr.product_name = pr.product_name
          unfold getStrOpt
          rw [hn]
          rfl
        · intro hn
          show (getNumOpt pP "price").getD pr.price = pr.price
          unfold getNumOpt
          rw [hn]
          rfl
  · intro hk
    obtain ⟨msgs, hv⟩ := validateProductUpd_id_err hk
    constructor
    · show (update_product db pid pP fail).1 = db
      unfold update_product
      rw [hp, hv]
    · show (update_product db pid pP fail).2.status = 400
      unfold update_product
      rw [hp, hv]

theorem c2_partial_update_frame_witness :
    (∀ u', findUser (update_user dbSeed 1 [("name", JVal.jstr "Alicia")] none).1 1
        = some u' →
      u'.id = userA.id ∧
      (lookup [("name", JVal.jstr "Alicia")] "name" = none → u'.name = userA.name) ∧
      (lookup [("name", JVal.jstr "Alicia")] "address" = none → u'.address = userA.address) ∧
      (lookup [("name", JVal.jstr "Alicia")] "email" = none → u'.email = userA.email)) ∧
    ((lookup [("name", JVal.jstr "Alicia")] "id").isSome →
      (update_user dbSeed 1 [("name", JVal.jstr "Alicia")] none).1 = dbSeed ∧
      (update_user dbSeed 1 [("name", JVal.jstr "Alicia")] none).2.status = 400) ∧
    (∀ pr', findProduct (update_product dbSeed 1 [("id", JVal.jnum 7)] none).1 1
        = some pr' →
      pr'.id = prodW.id ∧
      (lookup [("id", JVal.jnum 7)] "product_name" = none →
        pr'.product_name = prodW.product_name) ∧
      (lookup [("id", JVal.jnum 7)] "price" = none → pr'.price = prodW.price)) ∧
    ((lookup [("id", JVal.jnum 7)] "id").isSome →
      (update_product dbSeed 1 [("id", JVal.jnum 7)] none).1 = dbSeed ∧
      (update_product dbSeed 1 [("id", JVal.jnum 7)] none).2.status = 400) :=
  c2_partial_update_frame dbSeed none 1 1 [("name", JVal.jstr "Alicia")]
    [("id", JVal.jnum 7)] userA prodW rfl rfl

-- ----------------------------------------------------------------------
-- C6
-- ----------------------------------------------------------------------

/-- C6: when the store raises an unexpected failure during any mutating
operation, the state is rolled back to exactly the pre-operation state, and
whenever the operation would otherwise have succeeded, the response is 500
carrying the underlying error message. -/
theorem c6_store_failure_atomic (db : DB) (req : Request) (m : String)
    (hmut : isMutating req = true) :
    (step db req (some m)).1 = db ∧
    ((step db req none).2.status = 200 ∨ (step db req none).2.status = 201 →
      (step db req (some m)).2 = ⟨500, Body.errorMsg m⟩) := by
  cases req with
  | getAllUsers => exact Bool.noConfusion hmut
  | getUser id => exact Bool.noConfusion hmut
  | getAllProducts => exact Bool.noConfusion hmut
  | getProduct id => exact Bool.noConfusion hmut
  | getUserOrders uid => exact Bool.noConfusion hmut
  | getOrderProducts oid => exact Bool.noConfusion hmut
  | addUser p =>
    refine ⟨?_, ?_⟩
    · show (add_user db p (some m)).1 = db
      unfold add_user
      cases hv : validateUser p with
      | error msgs => rfl
      | ok d =>
        dsimp only
        by_cases hd : (db.users.find? (fun v => v.email = d.email)).isSome
        · rw [if_pos hd]
        · rw [if_neg hd]
    · intro hok
      replace hok : (add_user db p none).2.status = 200 ∨
          (add_user db p none).2.status = 201 := hok
      show (add_user db p (some m)).2 = ⟨500, Body.errorMsg m⟩
      unfold add_user at hok ⊢
      cases hv : validateUser p with
      | error msgs =>
        rw [hv] at hok
        dsimp only at hok
        rcases hok with h | h <;> exact absurd h (by decide)
      | ok d =>
        rw [hv] at hok
        dsimp only at hok ⊢
        by_cases hd : (db.users.find? (fun v => v.email = d.email)).isSome
        · rw [if_pos hd] at hok
          dsimp only at hok
          rcases hok with h | h <;> exact absurd h (by decide)
        · rw [if_neg hd]
  | updateUser id p =>
    refine ⟨?_, ?_⟩
    · show (update_user db id p (some m)).1 = db
      unfold update_user
      cases hu : findUser db id with
      | none => rfl
      | some u =>
        cases hv : validateUserUpd p with
        | error msgs => rfl
        | ok d => rfl
    · intro hok
      replace hok : (update_user db id p none).2.status = 200 ∨
          (update_user db id p none).2.status = 201 := hok
      show (update_user db id p (some m)).2 = ⟨500, Body.errorMsg m⟩
      unfold update_user at hok ⊢
      cases hu : findUser db id with
      | none =>
        rw [hu] at hok
        dsimp only at hok
        rcases hok with h | h <;> exact absurd h (by decide)
      | some u =>
        cases hv : validateUserUpd p with
        | error msgs =>
          rw [hu] at hok
          dsimp only at hok
          rw [hv] at hok
          dsimp only at hok
          rcases hok with h | h <;> exact absurd h (by decide)
        | ok d => rfl
  | deleteUser id =>
    refine ⟨?_, ?_⟩
    · show (delete_user db id (some m)).1 = db
      unfold delete_user
      cases hu : findUser db id with
      | none => rfl
      | some u =>
        dsimp only
        by_cases ho : (db.orders.find? (fun o => o.user_id = (id : Int))).isSome
        · rw [if_pos ho]
        · rw [if_neg ho]
    · intro hok
      replace hok : (delete_user db id none).2.status = 200 ∨
          (delete_user db id none).2.status = 201 := hok
      show (delete_user db id (some m)).2 = ⟨500, Body.errorMsg m⟩
      unfold delete_user at hok ⊢
      cases hu : findUser db id with
      | none =>
        rw [hu] at hok
        dsimp only at hok
        rcases hok with h | h <;> exact absurd h (by decide)
      | some u =>
        rw [hu] at hok
        dsimp only at hok ⊢
        by_cases ho : (db.orders.find? (fun o => o.user_id = (id : Int))).isSome
        · rw [if_pos ho] at hok
          dsimp only at hok
          rcases hok with h | h <;> exact absurd h (by decide)
        · rw [if_neg ho]
  | createProduct p =>
    refine ⟨?_, ?_⟩
    · show (create_product db p (some m)).1 = db
      unfold create_product
      cases hv : validateProduct p with
      | error msgs => rfl
      | ok d => rfl
    · intro hok
      show (create_product db p (some m)).2 = ⟨500, Body.errorMsg m⟩
      replace hok : (create_product db p none).2.status = 200 ∨
          (create_product db p none).2.status = 201 := hok
      unfold create_product at hok ⊢
      cases hv : validateProduct p with
      | error msgs =>
        rw [hv] at hok
        dsimp only at hok
        rcases hok with h | h <;> exact absurd h (by decide)
      | ok d => rfl
  | updateProduct id p =>
    refine ⟨?_, ?_⟩
    · show (update_product db id p (some m)).1 = db
      unfold update_product
      cases hp : findProduct db id with
      | none => rfl
      | some pr =>
        cases hv : validateProductUpd p with
        | error msgs => rfl
        | ok d => rfl
    · intro hok
      replace hok : (update_product db id p none).2.status = 200 ∨
          (update_product db id p none).2.status = 201 := hok
      show (update_product db id p (some m)).2 = ⟨500, Body.errorMsg m⟩
      unfold update_product at hok ⊢
      cases hp : findProduct db id with
      | none =>
        rw [hp] at hok
        dsimp only at hok
        rcases hok with h | h <;> exact absurd h (by decide)
      | some pr =>
        cases hv : validateProductUpd p with
        | error msgs =>
          rw [hp] at hok
          dsimp only at hok
          rw [hv] at hok
          dsimp only at hok
          rcases hok with h | h <;> exact absurd h (by decide)
        | ok d => rfl
  | deleteProduct id =>
    refine ⟨?_, ?_⟩
    · show (delete_product db id (some m)).1 = db
      unfold delete_product
      cases hp : findProduct db id with
      | none => rfl
      | some pr => rfl
    · intro hok
      replace hok : (delete_product db id none).2.status = 200 ∨
          (delete_product db id none).2.status = 201 := hok
      show (delete_product db id (some m)).2 = ⟨500, Body.errorMsg m⟩
      unfold delete_product at hok ⊢
      cases hp : findProduct db id with
      | none =>
        rw [hp] at hok
        dsimp only at hok
        rcases hok with h | h <;> exact absurd h (by decide)
      | some pr => rfl
  | createOrder p now =>
    refine ⟨?_, ?_⟩
    · show (create_order db p now (some m)).1 = db
      unfold create_order
      cases hv : validateOrder p with
      | error msgs => rfl
      | ok d =>
        dsimp only
        by_cases hn : (db.users.find? (fun v => (v.id : Int) = d.user_id)).isNone
        · rw [if_pos hn]
        · rw [if_neg hn]
    · intro hok
      replace hok : (create_order db p now none).2.status = 200 ∨
          (create_order db p now none).2.status = 201 := hok
      show (create_order db p now (some m)).2 = ⟨500, Body.errorMsg m⟩
      unfold create_order at hok ⊢
      cases hv : validateOrder p with
      | error msgs =>
        rw [hv] at hok
        dsimp only at hok
        rcases hok with h | h <;> exact absurd h (by decide)
      | ok d =>
        rw [hv] at hok
        dsimp only at hok ⊢
        by_cases hn : (db.users.find? (fun v => (v.id : Int) = d.user_id)).isNone
        · rw [if_pos hn] at hok
          dsimp only at hok
          rcases hok with h | h <;> exact absurd h (by decide)
        · rw [if_neg hn]
  | addProductToOrder oid pid =>
    refine ⟨?_, ?_⟩
    · show (add_product_to_order db oid pid (some m)).1 = db
      unfold add_product_to_order
      cases ho : findOrder db oid with
      | none => rfl
      | some o =>
        cases hp : findProduct db pid with
        | none => rfl
        | some pr =>
          dsimp only
          by_cases hmem : (oid, pid) ∈ db.orderProducts
          · rw [if_pos hmem]
          · rw [if_neg hmem]
    · intro hok
      replace hok : (add_product_to_order db oid pid none).2.status = 200 ∨
          (add_product_to_order db oid pid none).2.status = 201 := hok
      show (add_product_to_order db oid pid (some m)).2 = ⟨500, Body.errorMsg m⟩
      unfold add_product_to_order at hok ⊢
      cases ho : findOrder db oid with
      | none =>
        rw [ho] at hok
        dsimp only at hok
        rcases hok with h | h <;> exact absurd h (by decide)
      | some o =>
        cases hp : findProduct db pid with
        | none =>
          rw [ho, hp] at hok
          dsimp only at hok
          rcases hok with h | h <;> exact absurd h (by decide)
        | some pr =>
          rw [ho, hp] at hok
          dsimp only at hok ⊢
          by_cases hmem : (oid, pid) ∈ db.orderProducts
          · rw [if_pos hmem] at hok
            dsimp only at hok
            rcases hok with h | h <;> exact absurd h (by decide)
          · rw [if_neg hmem]
  | removeProductFromOrder oid pid =>
    refine ⟨?_, ?_⟩
    · show (remove_product_from_order db oid pid (some m)).1 = db
      unfold remove_product_from_order
      cases ho : findOrder db oid with
      | none => rfl
      | some o =>
        cases hp : findProduct db pid with
        | none => rfl
        | some pr =>
          dsimp only
          by_cases hmem : (oid, pid) ∈ db.orderProducts
          · rw [if_pos hmem]
          · rw [if_neg hmem]
    · intro hok
      replace hok : (remove_product_from_order db oid pid none).2.status = 200 ∨
          (remove_product_from_order db oid pid none).2.status = 201 := hok
      show (remove_product_from_order db oid pid (some m)).2 = ⟨500, Body.errorMsg m⟩
      unfold remove_product_from_order at hok ⊢
      cases ho : findOrder db oid with
      | none =>
        rw [ho] at hok
        dsimp only at hok
        rcases hok with h | h <;> exact absurd h (by decide)
      | some o =>
        cases hp : findProduct db pid with
        | none =>
          rw [ho, hp] at hok
          dsimp only at hok
          rcases hok with h | h <;> exact absurd h (by decide)
        | some pr =>
          rw [ho, hp] at hok
          dsimp only at hok ⊢
          by_cases hmem : (oid, pid) ∈ db.orderProducts
          · rw [if_pos hmem]
          · rw [if_neg hmem] at hok
            dsimp only at hok
            rcases hok with h | h <;> exact absurd h (by decide)

theorem c6_store_failure_atomic_witness :
    isMutating (Request.createProduct payNewProduct) = true ∧
    (step dbSeed (Request.createProduct payNewProduct) (some "boom")).1 = dbSeed ∧
    ((step dbSeed (Request.createProduct payNewProduct) none).2.status = 200 ∨
      (step dbSeed (Request.createProduct payNewProduct) none).2.status = 201 →
      (step dbSeed (Request.createProduct payNewProduct) (some "boom")).2
        = ⟨500, Body.errorMsg "boom"⟩) :=
  ⟨rfl,
   (c6_store_failure_atomic dbSeed (Request.createProduct payNewProduct) "boom" rfl).1,
   (c6_store_failure_atomic dbSeed (Request.createProduct payNewProduct) "boom" rfl).2⟩

theorem c10_no_dangling_associations_witness :
    (∀ row ∈ (step dbSeed Request.getAllUsers none).1.orderProducts,
        (∃ o ∈ (step dbSeed Request.getAllUsers none).1.orders, o.id = row.1) ∧
        (∃ pr ∈ (step dbSeed Request.getAllUsers none).1.products, pr.id = row.2)) ∧
    ((delete_product dbSeed 1 none).2.status = 200 →
      ∀ row ∈ (delete_product dbSeed 1 none).1.orderProducts, row.2 ≠ 1) :=
  c10_no_dangling_associations dbSeed Request.getAllUsers none 1 inv_dbSeed

end ECommerce
